import Mathlib

/-!
Verification development for the interactive 3D globe component.

The definitions below are a shallow embedding of the TypeScript source:
the Globe component (picking buffer, interaction handlers, detail-panel
fetch continuations) and the CameraView component.  Stateful code is
modelled by explicit state passing; DOM/GSAP side effects are recorded in
an explicit effect trace; the external HTTP/AI services are modelled by
oracles giving each request's response.
-/

namespace Globe

/-- `svgViewBox = [2000, 1000]` from the source. -/
def svgViewBox : Nat × Nat := (2000, 1000)

/-- One entry of `svgPaths`: `{ d: pathString, name, id }`. -/
structure CountryPath where
  d : String
  name : String
  id : String
deriving Repr, DecidableEq, Inhabited

/-- A pixel colour of the picking canvas, as (r, g, b) channel values. -/
abbrev Pixel := Nat × Nat × Nat

/-- The fill colour used for path `i` of the picking canvas:
`rgb((i+1) >> 16 & 255, (i+1) >> 8 & 255, (i+1) & 255)` where the source
passes `v = i + 1`. -/
def encodeRGB (v : Nat) : Pixel :=
  (v >>> 16 &&& 255, v >>> 8 &&& 255, v &&& 255)

/-- The picking-canvas fill loop
`svgPaths.forEach((path, i) => { fillStyle = rgb(encodeRGB (i+1)); fill(path.d) })`:
each later fill overwrites earlier ones where paths overlap, starting from the
blank (0,0,0) canvas.  `inside i p` abstracts rasterized membership of canvas
position `p` in path `i` (after the canvas translate). -/
def pickPixel (inside : Nat → Int × Int → Bool) (n : Nat) (p : Int × Int) : Pixel :=
  (List.range n).foldl (fun acc i => if inside i p then encodeRGB (i + 1) else acc) (0, 0, 0)

/-- `updateMap`'s pixel decode: `id = (pixel[0] << 16) | (pixel[1] << 8) | pixel[2]`. -/
def decodeId (px : Pixel) : Nat :=
  (px.1 <<< 16) ||| (px.2.1 <<< 8) ||| px.2.2

/-- `updateMap`'s UV-to-canvas mapping:
`x = Math.floor(uv.x * pickingCanvas.width)`,
`y = Math.floor((1 - uv.y) * pickingCanvas.height)`. -/
def uvToPos (uv : ℚ × ℚ) : Int × Int :=
  (Int.floor (uv.1 * 2000), Int.floor ((1 - uv.2) * 1000))

/-- `updateMap`'s decoded country index, `index = id - 1`, for the pixel read
at the position of `uv` on a picking canvas rasterizing `paths`. -/
def decodedIndex (paths : List CountryPath) (inside : Nat → Int × Int → Bool)
    (uv : ℚ × ℚ) : Int :=
  (decodeId (pickPixel inside paths.length (uvToPos uv)) : Int) - 1

/-! ### Interaction state and effects -/

/-- The value stored by `setClickedCountry({ name, id })`. -/
structure ClickedCountry where
  name : String
  id : String
deriving Repr, DecidableEq

/-- The four texture canvases of the compositor. -/
inductive CanvasId where
  | map
  | strokes
  | highlight
  | click
deriving Repr, DecidableEq

/-- Animatable targets referenced by the handlers. -/
inductive TweenTarget where
  | clickedMeshScale
  | selectionMeshScale
  | cameraZoom
deriving Repr, DecidableEq

/-- Side effects performed by the interaction handlers, in program order:
canvas draws (`drawCountry`), `gsap.killTweensOf`, immediate `scale.set`,
`gsap.to` tween starts, and `clearTimeout`/`setTimeout` on the revert timer. -/
inductive Effect where
  | draw (canvas : CanvasId) (index : Int)
  | killTweens (target : TweenTarget)
  | setScale (target : TweenTarget) (value : ℚ)
  | startTween (target : TweenTarget) (value : ℚ)
  | clearTimeout (id : Nat)
  | setTimeout (id : Nat) (ms : Nat)
deriving Repr, DecidableEq

/-- The mutable interaction state of the globe effect: the closure variables
`hoveredCountryIdx`, `clickedCountryIdx`, `clickTimeout`, `targetZoom`, the
orbit controls' `autoRotate` flag, the mesh visibility flags, and the React
state `clickedCountry` / `countryName`. -/
structure GlobeState where
  hoveredCountryIdx : Int
  clickedCountryIdx : Int
  clickTimeout : Option Nat
  targetZoom : ℚ
  autoRotate : Bool
  isDeviceMotionActive : Bool
  clickedCountry : Option ClickedCountry
  countryName : String
  clickedMeshVisible : Bool
  selectionMeshVisible : Bool
deriving Repr, DecidableEq

/-- The state right after `initScene`/`createOrbitControls` (no device motion):
indices -1, no timer, `targetZoom = 1`, `controls.autoRotate = true`,
`globeClickedMesh.visible = false`. -/
def initialGlobeState : GlobeState where
  hoveredCountryIdx := -1
  clickedCountryIdx := -1
  clickTimeout := none
  targetZoom := 1
  autoRotate := true
  isDeviceMotionActive := false
  clickedCountry := none
  countryName := ""
  clickedMeshVisible := false
  selectionMeshVisible := true

/-- `handleCountryClick(idx)`.  `fresh` is the id of the newly created
3-second revert timer; the call sites guarantee `idx` is a valid index. -/
def handleCountryClick (paths : List CountryPath) (fresh : Nat) (idx : Nat)
    (s : GlobeState) : GlobeState × List Effect :=
  if s.clickedCountryIdx = (idx : Int) then (s, [])
  else
    ({ s with
        clickedCountryIdx := (idx : Int),
        clickedCountry := some
          { name := (paths.getD idx default).name, id := (paths.getD idx default).id },
        clickedMeshVisible := true,
        targetZoom := 3/2,
        autoRotate := if s.isDeviceMotionActive then s.autoRotate else false,
        clickTimeout := some fresh },
     [Effect.draw CanvasId.click (idx : Int),
      Effect.killTweens TweenTarget.clickedMeshScale,
      Effect.setScale TweenTarget.clickedMeshScale 1,
      Effect.startTween TweenTarget.clickedMeshScale (102/100),
      Effect.startTween TweenTarget.cameraZoom (3/2)]
     ++ (match s.clickTimeout with
         | some t => [Effect.clearTimeout t]
         | none => []) ++ [Effect.setTimeout fresh 3000])

/-- `revertClick()`: clears the clicked state, restores zoom and auto-rotate
(the latter only outside device-motion mode, as in the source guard). -/
def revertClick (s : GlobeState) : GlobeState × List Effect :=
  if s.clickedCountryIdx = -1 then (s, [])
  else
    ({ s with
        clickedCountryIdx := -1,
        clickedCountry := none,
        targetZoom := 1,
        autoRotate := if s.isDeviceMotionActive then s.autoRotate else true },
     [Effect.startTween TweenTarget.clickedMeshScale 1,
      Effect.startTween TweenTarget.cameraZoom 1])

/-- `updateMap(uv, isClick)`: decode the picking pixel under `uv`; on a valid
index either dispatch the click or update the hover highlight (only when the
hovered index changed), returning whether a country was matched. -/
def updateMap (paths : List CountryPath) (inside : Nat → Int × Int → Bool)
    (fresh : Nat) (uv : ℚ × ℚ) (isClick : Bool) (s : GlobeState) :
    Bool × GlobeState × List Effect :=
  let index := decodedIndex paths inside uv
  if 0 ≤ index ∧ index < (paths.length : Int) then
    if isClick then
      let r := handleCountryClick paths fresh index.toNat s
      (true, r.1, r.2)
    else if index ≠ s.hoveredCountryIdx then
      (true,
       { s with
           hoveredCountryIdx := index,
           selectionMeshVisible := true,
           countryName := (paths.getD index.toNat default).name },
       [Effect.draw CanvasId.highlight index,
        Effect.killTweens TweenTarget.selectionMeshScale,
        Effect.setScale TweenTarget.selectionMeshScale 1,
        Effect.startTween TweenTarget.selectionMeshScale (1015/1000)])
    else (true, s, [])
  else (false, s, [])

/-- `clearHover()`: on leaving a country, reset the hover index and name and
start the reverse scale tween (whose completion hides the selection mesh). -/
def clearHover (s : GlobeState) : GlobeState × List Effect :=
  if s.hoveredCountryIdx ≠ -1 then
    ({ s with hoveredCountryIdx := -1, countryName := "" },
     [Effect.startTween TweenTarget.selectionMeshScale 1])
  else (s, [])

/-- `handleClick`: ray cast (`hit` is the uv of the stroke-mesh intersection,
if any), then `updateMap(uv, true)`, reverting the click when nothing was hit. -/
def handleClick (paths : List CountryPath) (inside : Nat → Int × Int → Bool)
    (fresh : Nat) (hit : Option (ℚ × ℚ)) (s : GlobeState) : GlobeState × List Effect :=
  match hit with
  | some uv =>
    let r := updateMap paths inside fresh uv true s
    if r.1 then (r.2.1, r.2.2)
    else
      let rr := revertClick r.2.1
      (rr.1, r.2.2 ++ rr.2)
  | none => revertClick s

/-- The hover path of `render()` (when `isHoverable`): `updateMap(uv)` on an
intersection, `clearHover()` otherwise or when no country was matched. -/
def pointerHover (paths : List CountryPath) (inside : Nat → Int × Int → Bool)
    (hit : Option (ℚ × ℚ)) (s : GlobeState) : GlobeState × List Effect :=
  match hit with
  | some uv =>
    let r := updateMap paths inside 0 uv false s
    if r.1 then (r.2.1, r.2.2)
    else
      let rr := clearHover r.2.1
      (rr.1, r.2.2 ++ rr.2)
  | none => clearHover s

/-- `handleWheel`: clamp `targetZoom + (deltaY > 0 ? -0.3 : 0.3)` to
`[0.8, 3]` and tween the camera there. -/
def handleWheel (deltaYPos : Bool) (s : GlobeState) : GlobeState × List Effect :=
  let zoomDelta : ℚ := if deltaYPos then -3/10 else 3/10
  let z := max (8/10) (min 3 (s.targetZoom + zoomDelta))
  ({ s with targetZoom := z }, [Effect.startTween TweenTarget.cameraZoom z])

/-- User-interaction events that can change `targetZoom`: wheel events, clicks
(with the ray-cast result and the fresh timer id), pointer moves, and the
firing of the 3-second revert timer (whose callback is `revertClick`). -/
inductive UIEvent where
  | wheel (deltaYPos : Bool)
  | pointerClick (hit : Option (ℚ × ℚ)) (fresh : Nat)
  | pointerMove (hit : Option (ℚ × ℚ))
  | revertTimer
deriving Repr, DecidableEq

/-- Dispatch one event to the corresponding source handler. -/
def stepEvent (paths : List CountryPath) (inside : Nat → Int × Int → Bool)
    (e : UIEvent) (s : GlobeState) : GlobeState :=
  match e with
  | UIEvent.wheel d => (handleWheel d s).1
  | UIEvent.pointerClick hit fresh => (handleClick paths inside fresh hit s).1
  | UIEvent.pointerMove hit => (pointerHover paths inside hit s).1
  | UIEvent.revertTimer => (revertClick s).1

/-- Run a sequence of interaction events from a state. -/
def runEvents (paths : List CountryPath) (inside : Nat → Int × Int → Bool)
    (evs : List UIEvent) (s : GlobeState) : GlobeState :=
  evs.foldl (fun s e => stepEvent paths inside e s) s

/-! ### Detail panel: weather, country metadata, AI summary -/

/-- The `weatherData` React state. -/
structure Weather where
  temperature : ℚ
  windspeed : ℚ
  weathercode : Nat
  capital : String
deriving Repr, DecidableEq

/-- The `countryDetails` React state. -/
structure CountryDetails where
  population : Nat
  region : String
  subregion : String
  currencies : String
  languages : String
  capital : String
deriving Repr, DecidableEq

/-- A grounding source `{ uri, title }`. -/
structure GroundingSource where
  uri : String
  title : String
deriving Repr, DecidableEq

/-- The React detail state written by the `clickedCountry` effect and its two
async fetch continuations. -/
structure DetailState where
  weatherData : Option Weather
  countryDetails : Option CountryDetails
  aiSummary : Option String
  isLoadingWeather : Bool
  isLoadingSummary : Bool
  groundingSources : List GroundingSource
deriving Repr, DecidableEq

/-- JavaScript `a || b` on an optional string: `undefined` and `""` are falsy. -/
def jsOrString (a : Option String) (b : String) : String :=
  match a with
  | some s => if s = "" then b else s
  | none => b

/-- JavaScript truthiness of an optional string (used for `!apiKey` and
`clickedCountry?.id`). -/
def jsTruthyStr (a : Option String) : Bool :=
  match a with
  | some s => s ≠ ""
  | none => false

/-- The synchronous body of `useEffect[clickedCountry]`: clearing a selection
clears all detail state; a new selection resets it, sets both loading flags and
fires `fetchWeather()` and `fetchSummary(name)` for the new country (returned
as the second component; `none` means no fetches are started). -/
def clickedCountryEffect (c : Option ClickedCountry) (d : DetailState) :
    DetailState × Option ClickedCountry :=
  match c with
  | none =>
    ({ d with weatherData := none, countryDetails := none,
              aiSummary := none, groundingSources := [] }, none)
  | some cc =>
    ({ weatherData := none, countryDetails := none, aiSummary := none,
       isLoadingWeather := true, isLoadingSummary := true,
       groundingSources := [] }, some cc)

/-- A parsed `restcountries` body (`countryData[0]`), with just the fields the
component reads.  `capitalInfoLatlng` models `country.capitalInfo?.latlng`,
`capitalHead` models `country.capital?.[0]`, and `currencies`/`languages`
model the (optional) objects already mapped to their `Object.values` lists. -/
structure RestCountry where
  capitalInfoLatlng : Option (ℚ × ℚ)
  latlng : Option (ℚ × ℚ)
  capitalHead : Option String
  nameCommon : String
  population : Nat
  region : String
  subregion : String
  currencies : Option (List String)
  languages : Option (List String)
deriving Repr, DecidableEq

/-- The `current_weather` body of the open-meteo response. -/
structure WeatherReport where
  temperature : ℚ
  windspeed : ℚ
  weathercode : Nat
deriving Repr, DecidableEq

/-- Responses of the external endpoints `fetchWeather` may consult; `none`
models a non-ok (or failed) response. -/
structure FetchOracle where
  nameFull : Option RestCountry
  alpha : Option RestCountry
  nameLoose : Option RestCountry
  weather : Option WeatherReport
deriving Repr, DecidableEq

/-- A network request issued by `fetchWeather`. -/
inductive Request where
  | nameFull (name : String)
  | alpha (id : String)
  | nameLoose (name : String)
  | weatherAt (lat lng : ℚ)
deriving Repr, DecidableEq

/-- The country-lookup fallback chain of `fetchWeather`: full-text name lookup,
then — if that response is not ok and the clicked country has a (truthy) id —
the code-based `alpha` lookup, then a loose name lookup, together with the
requests issued. -/
def countryLookup (c : ClickedCountry) (o : FetchOracle) :
    Option RestCountry × List Request :=
  let useAlpha := o.nameFull = none ∧ c.id ≠ ""
  let r2 : Option RestCountry := if useAlpha then o.alpha else o.nameFull
  let reqs2 : List Request := if useAlpha then [Request.alpha c.id] else []
  let r3 : Option RestCountry := if r2 = none then o.nameLoose else r2
  let reqs3 : List Request := if r2 = none then [Request.nameLoose c.name] else []
  (r3, [Request.nameFull c.name] ++ reqs2 ++ reqs3)

/-- The coordinates/capital extraction of `fetchWeather`: prefer
`capitalInfo.latlng` with `capital?.[0] || 'Capital'`, fall back to
`country.latlng` with `name.common`, otherwise throw (`none`). -/
def countryCoords (country : RestCountry) : Option (ℚ × ℚ × String) :=
  match country.capitalInfoLatlng with
  | some (lat, lng) => some (lat, lng, jsOrString country.capitalHead "Capital")
  | none =>
    match country.latlng with
    | some (lat, lng) => some (lat, lng, country.nameCommon)
    | none => none

/-- The `countryDetails` record built from a country body and its capital. -/
def mkCountryDetails (country : RestCountry) (capital : String) : CountryDetails where
  population := country.population
  region := country.region
  subregion := country.subregion
  currencies :=
    match country.currencies with
    | some cs => String.intercalate ", " cs
    | none => "N/A"
  languages :=
    match country.languages with
    | some ls => String.intercalate ", " ls
    | none => "N/A"
  capital := capital

/-- The `fetchWeather` async function, as a function of the clicked country,
the response oracle and the `isMounted` flag at resolution time.  Any throw is
caught and — still guarded by `isMounted` — only clears the loading flag.
Returns the updated detail state and the requests issued. -/
def fetchWeather (c : ClickedCountry) (o : FetchOracle) (isMounted : Bool)
    (d : DetailState) : DetailState × List Request :=
  let lk := countryLookup c o
  match lk.1 with
  | none => (if isMounted then { d with isLoadingWeather := false } else d, lk.2)
  | some country =>
    match countryCoords country with
    | none => (if isMounted then { d with isLoadingWeather := false } else d, lk.2)
    | some (lat, lng, capital) =>
      let reqs := lk.2 ++ [Request.weatherAt lat lng]
      match o.weather with
      | none => (if isMounted then { d with isLoadingWeather := false } else d, reqs)
      | some w =>
        (if isMounted then
          { d with
              countryDetails := some (mkCountryDetails country capital),
              weatherData := some
                { temperature := w.temperature, windspeed := w.windspeed,
                  weathercode := w.weathercode, capital := capital },
              isLoadingWeather := false }
         else d, reqs)

/-- A `generateContent` response: `response.text` and
`candidates?.[0]?.groundingMetadata?.groundingChunks` with each chunk's
optional `web` field. -/
structure GenResponse where
  text : Option String
  groundingChunks : Option (List (Option GroundingSource))
deriving Repr, DecidableEq

/-- `Array.from(new Map(sources.map(s => [s.uri, s])).values())`: deduplicate
by `uri` with JavaScript `Map` semantics — the first insertion fixes the
position, the last value for a key wins. -/
def jsMapDedup (l : List GroundingSource) : List GroundingSource :=
  l.foldl
    (fun acc s =>
      if acc.any (fun t => t.uri = s.uri)
      then acc.map (fun t => if t.uri = s.uri then s else t)
      else acc ++ [s]) []

/-- The `fetchSummary` async function: a missing (falsy) API key or a thrown
`generateContent` call falls back to a fixed message; a successful call stores
the summary text (with its own fallback for an empty `response.text`) and the
deduplicated grounding sources.  Every write is guarded by `isMounted`. -/
def fetchSummary (apiKey : Option String) (call : Except Unit GenResponse)
    (isMounted : Bool) (d : DetailState) : DetailState :=
  if jsTruthyStr apiKey = false then
    if isMounted then
      { d with aiSummary := some "Gemini API key not configured.",
               isLoadingSummary := false }
    else d
  else
    match call with
    | Except.ok response =>
      if isMounted then
        let d1 := { d with aiSummary := some (jsOrString response.text "No summary available.") }
        let d2 :=
          match response.groundingChunks with
          | some chunks =>
            { d1 with groundingSources := jsMapDedup (chunks.filterMap id) }
          | none => d1
        { d2 with isLoadingSummary := false }
      else d
    | Except.error _ =>
      if isMounted then
        { d with aiSummary := some "Failed to load summary.",
                 isLoadingSummary := false }
      else d

end Globe

namespace CameraView

/-- The state of the `CameraView` component: its two React states and the
video element's `srcObject` (a stream, identified by a number). -/
structure CamState where
  isCameraOn : Bool
  error : Option String
  videoSrcObject : Option Nat
deriving Repr, DecidableEq

/-- `setupCamera()`: when the camera is being turned on, `getUserMedia` either
yields a stream (attached to the video element, clearing the error) or rejects
(inline error message, camera toggled back off); when turning off, the tracks
are stopped and the source detached. -/
def setupCamera (getUserMedia : Except Unit Nat) (s : CamState) : CamState :=
  if s.isCameraOn then
    match getUserMedia with
    | Except.ok stream => { s with videoSrcObject := some stream, error := none }
    | Except.error _ =>
      { s with error := some "Could not access camera", isCameraOn := false }
  else
    { s with videoSrcObject := none }

end CameraView

namespace Globe

/-- A tiny two-country world used to instantiate universally quantified
theorems on concrete inputs. -/
def demoPaths : List CountryPath :=
  [{ d := "M0 0h10v10h-10z", name := "Testland", id := "TL" },
   { d := "M20 0h10v10h-10z", name := "Otherland", id := "OL" }]

/-- A rasterized-membership oracle for `demoPaths` in which every canvas
position lies in path 0 only. -/
def demoInside : Nat → Int × Int → Bool := fun i _ => decide (i = 0)

/-- A detail state with nothing loaded. -/
def emptyDetail : DetailState where
  weatherData := none
  countryDetails := none
  aiSummary := none
  isLoadingWeather := false
  isLoadingSummary := false
  groundingSources := []

/-! ## Theorems -/

/-! ### Round-trip of the RGB index encoding -/

theorem encodeRGB_eq (v : Nat) :
    encodeRGB v = (v / 2 ^ 16 % 2 ^ 8, v / 2 ^ 8 % 2 ^ 8, v % 2 ^ 8) := by
  show (v >>> 16 &&& 255, v >>> 8 &&& 255, v &&& 255) = _
  have h255 : (255 : Nat) = 2 ^ 8 - 1 := by norm_num
  rw [h255, Nat.and_pow_two_sub_one_eq_mod, Nat.and_pow_two_sub_one_eq_mod,
    Nat.and_pow_two_sub_one_eq_mod, Nat.shiftRight_eq_div_pow, Nat.shiftRight_eq_div_pow]

theorem decodeId_eq (r g b : Nat) (hg : g < 2 ^ 8) (hb : b < 2 ^ 8) :
    decodeId (r, g, b) = 2 ^ 16 * r + 2 ^ 8 * g + b := by
  show (r <<< 16) ||| (g <<< 8) ||| b = _
  have hm : 2 ^ 8 * g + b < 2 ^ 16 := by
    have : 2 ^ 8 * g + b ≤ 2 ^ 8 * (2 ^ 8 - 1) + (2 ^ 8 - 1) := by
      have := Nat.le_sub_one_of_lt hg
      have := Nat.le_sub_one_of_lt hb
      gcongr
    omega
  rw [Nat.shiftLeft_eq, Nat.shiftLeft_eq, Nat.lor_assoc,
    show g * 2 ^ 8 = 2 ^ 8 * g from Nat.mul_comm _ _,
    show r * 2 ^ 16 = 2 ^ 16 * r from Nat.mul_comm _ _,
    ← Nat.mul_add_lt_is_or hb, ← Nat.mul_add_lt_is_or hm, Nat.add_assoc]

/-- Decoding inverts the fill-colour encoding for any id below 2^24
(24 bits of colour are available; the country count is far below this). -/
theorem decodeId_encodeRGB (v : Nat) (hv : v < 2 ^ 24) :
    decodeId (encodeRGB v) = v := by
  rw [encodeRGB_eq, decodeId_eq _ _ _ (Nat.mod_lt _ (by norm_num)) (Nat.mod_lt _ (by norm_num))]
  have hdiv : v / 2 ^ 16 < 2 ^ 8 := by omega
  rw [Nat.mod_eq_of_lt hdiv]
  omega

/-! ### The picking-canvas fold -/

theorem pickPixel_of_not_inside (inside : Nat → Int × Int → Bool) (p : Int × Int)
    (L : List Nat) (acc : Pixel) (h : ∀ j ∈ L, inside j p = false) :
    L.foldl (fun acc i => if inside i p then encodeRGB (i + 1) else acc) acc = acc := by
  induction L generalizing acc with
  | nil => rfl
  | cons j L ih =>
    have hj : inside j p = false := h j (List.mem_cons_self _ _)
    have hcond : ¬ (inside j p = true) := by simp [hj]
    simp only [List.foldl_cons, if_neg hcond]
    exact ih acc fun k hk => h k (List.mem_cons_of_mem _ hk)

theorem pickPixel_of_unique (inside : Nat → Int × Int → Bool) (p : Int × Int)
    (L : List Nat) (acc : Pixel) (i : Nat) (hmem : i ∈ L) (hi : inside i p = true)
    (huniq : ∀ j ∈ L, j ≠ i → inside j p = false) :
    L.foldl (fun acc k => if inside k p then encodeRGB (k + 1) else acc) acc
      = encodeRGB (i + 1) := by
  induction L generalizing acc with
  | nil => cases hmem
  | cons j L ih =>
    by_cases hji : j = i
    · subst hji
      simp only [List.foldl_cons, hi, if_pos rfl]
      by_cases hmem' : j ∈ L
      · exact ih (encodeRGB (j + 1)) hmem' fun k hk => huniq k (List.mem_cons_of_mem _ hk)
      · exact pickPixel_of_not_inside inside p L _ fun k hk =>
          huniq k (List.mem_cons_of_mem _ hk) (fun hkj => hmem' (hkj ▸ hk))
    · have hmem' : i ∈ L := by
        rcases List.mem_cons.mp hmem with h | h
        · exact absurd h.symm hji
        · exact h
      have hj : inside j p = false :=
        huniq j (List.mem_cons_self _ _) hji
      have hcond : ¬ (inside j p = true) := by simp [hj]
      simp only [List.foldl_cons, if_neg hcond]
      exact ih _ hmem' fun k hk => huniq k (List.mem_cons_of_mem _ hk)

/-- C1: Picking-buffer round-trip.  The picking canvas fills the polygon of
the country at array index `i` with the RGB encoding of `i + 1`, and
`updateMap` decodes a pixel back as `(r << 16 | g << 8 | b) - 1`.  (a) For a
UV coordinate whose canvas position lies in exactly one country polygon `i`,
the decoded index is `i`; (b) for a UV outside every polygon the pixel decodes
to 0, i.e. index -1, and `updateMap` reports no match; (c) any decoded index
outside `[0, number of countries)` makes `updateMap` return "no match"
(`false`, with the state untouched and no effects) rather than erroring. -/
theorem picking_roundtrip (paths : List CountryPath) (inside : Nat → Int × Int → Bool)
    (uv : ℚ × ℚ) (fresh : Nat) (isClick : Bool) (s : GlobeState) :
    (∀ i : Nat, i < paths.length → paths.length < 2 ^ 24 →
      inside i (uvToPos uv) = true →
      (∀ j : Nat, j < paths.length → j ≠ i → inside j (uvToPos uv) = false) →
      decodedIndex paths inside uv = (i : Int)) ∧
    ((∀ j : Nat, j < paths.length → inside j (uvToPos uv) = false) →
      decodedIndex paths inside uv = -1 ∧
      updateMap paths inside fresh uv isClick s = (false, s, [])) ∧
    (∀ uv2 : ℚ × ℚ,
      ¬ (0 ≤ decodedIndex paths inside uv2 ∧
         decodedIndex paths inside uv2 < (paths.length : Int)) →
      updateMap paths inside fresh uv2 isClick s = (false, s, [])) := by
  refine ⟨?inA, ?outA, ?rangeA⟩
  case inA =>
    intro i hi hn hins huniq
    unfold decodedIndex pickPixel
    rw [pickPixel_of_unique inside (uvToPos uv) (List.range paths.length) (0, 0, 0) i
      (List.mem_range.mpr hi) hins
      (fun j hj hne => huniq j (List.mem_range.mp hj) hne)]
    rw [decodeId_encodeRGB (i + 1) (by omega)]
    push_cast
    ring
  case outA =>
    intro hout
    have hdec : decodedIndex paths inside uv = -1 := by
      unfold decodedIndex pickPixel
      rw [pickPixel_of_not_inside inside (uvToPos uv) (List.range paths.length) (0, 0, 0)
        (fun j hj => hout j (List.mem_range.mp hj))]
      decide
    refine ⟨hdec, ?_⟩
    unfold updateMap
    rw [hdec]
    norm_num
  case rangeA =>
    intro uv2 hrange
    unfold updateMap
    rw [if_neg hrange]

/-- Witness for C1 on the two-country demo world: every canvas position lies
in path 0 only, and the decoded picking index is 0. -/
theorem picking_roundtrip_witness :
    decodedIndex demoPaths demoInside ((0 : ℚ), (0 : ℚ)) = ((0 : Nat) : Int) :=
  (picking_roundtrip demoPaths demoInside ((0 : ℚ), (0 : ℚ)) 0 false initialGlobeState).1 0
    (by decide) (by decide) rfl (by decide)

/-- C3: re-clicking the currently clicked index is a no-op —
`handleCountryClick(idx)` with `clickedCountryIdx` already `idx` returns
immediately: the state is unchanged (no `clickedCountry` update, hence no
re-fetch) and no effect is emitted (no redraw, no animation, no timer). -/
theorem handleCountryClick_reclick_noop (paths : List CountryPath) (fresh idx : Nat)
    (s : GlobeState) (h : s.clickedCountryIdx = (idx : Int)) :
    handleCountryClick paths fresh idx s = (s, []) := by
  unfold handleCountryClick
  rw [if_pos h]

/-- Witness for C3: re-clicking country 1 in a state where it is clicked. -/
theorem handleCountryClick_reclick_noop_witness :
    handleCountryClick demoPaths 5 1 { initialGlobeState with clickedCountryIdx := 1 } =
      ({ initialGlobeState with clickedCountryIdx := 1 }, []) :=
  handleCountryClick_reclick_noop demoPaths 5 1 _ (by decide)

/-- C4: clicking country B while A is clicked and A's revert timer `t` is
pending emits exactly the effect trace that cancels A's timer
(`clearTimeout t`) and kills the pending click-ring tweens before starting
B's, installs B's new timer, and sets `clickedCountry` to B — whose effect
resets the detail state and fires the fetches for B only. -/
theorem click_supersedes (paths : List CountryPath) (fresh idxB t : Nat)
    (s : GlobeState) (d : DetailState)
    (hA : s.clickedCountryIdx ≠ (idxB : Int))
    (ht : s.clickTimeout = some t) :
    (handleCountryClick paths fresh idxB s).2 =
      [Effect.draw CanvasId.click (idxB : Int),
       Effect.killTweens TweenTarget.clickedMeshScale,
       Effect.setScale TweenTarget.clickedMeshScale 1,
       Effect.startTween TweenTarget.clickedMeshScale (102/100),
       Effect.startTween TweenTarget.cameraZoom (3/2),
       Effect.clearTimeout t,
       Effect.setTimeout fresh 3000] ∧
    (handleCountryClick paths fresh idxB s).1.clickTimeout = some fresh ∧
    (handleCountryClick paths fresh idxB s).1.clickedCountry =
      some { name := (paths.getD idxB default).name, id := (paths.getD idxB default).id } ∧
    clickedCountryEffect (handleCountryClick paths fresh idxB s).1.clickedCountry d =
      ({ weatherData := none, countryDetails := none, aiSummary := none,
         isLoadingWeather := true, isLoadingSummary := true, groundingSources := [] },
       some { name := (paths.getD idxB default).name, id := (paths.getD idxB default).id }) := by
  unfold handleCountryClick clickedCountryEffect
  rw [if_neg hA, ht]
  simp

/-- Witness for C4: clicking country 1 while country 0 is clicked with timer 9
pending; fresh timer id 10. -/
theorem click_supersedes_witness :
    (handleCountryClick demoPaths 10 1
        { initialGlobeState with clickedCountryIdx := 0, clickTimeout := some 9 }).2 =
      [Effect.draw CanvasId.click 1,
       Effect.killTweens TweenTarget.clickedMeshScale,
       Effect.setScale TweenTarget.clickedMeshScale 1,
       Effect.startTween TweenTarget.clickedMeshScale (102/100),
       Effect.startTween TweenTarget.cameraZoom (3/2),
       Effect.clearTimeout 9,
       Effect.setTimeout 10 3000] ∧
    clickedCountryEffect
        (handleCountryClick demoPaths 10 1
          { initialGlobeState with clickedCountryIdx := 0, clickTimeout := some 9 }).1.clickedCountry
        emptyDetail =
      ({ weatherData := none, countryDetails := none, aiSummary := none,
         isLoadingWeather := true, isLoadingSummary := true, groundingSources := [] },
       some { name := "Otherland", id := "OL" }) := by
  have h := click_supersedes demoPaths 10 1 9
    { initialGlobeState with clickedCountryIdx := 0, clickTimeout := some 9 }
    emptyDetail (by decide) rfl
  exact ⟨h.1, h.2.2.2⟩

/-- C5: a click whose hit test decodes to a valid, not-already-clicked index
`idx` (outside device-motion mode) sets `clickedCountry` to that country's
name and id, sets `targetZoom` to 1.5, disables auto-rotate and starts the
3-second revert timer; a click on a hit that decodes to no country, a click
with no intersection, and the timer callback all run `revertClick`, which (on
a clicked state) clears `clickedCountry`, restores `targetZoom` to 1 and
re-enables auto-rotate. -/
theorem clicked_state_transitions (paths : List CountryPath)
    (inside : Nat → Int × Int → Bool) (fresh : Nat) (uv : ℚ × ℚ) (idx : Nat)
    (s : GlobeState)
    (hdm : s.isDeviceMotionActive = false)
    (hdec : decodedIndex paths inside uv = (idx : Int))
    (hlt : idx < paths.length)
    (hne : s.clickedCountryIdx ≠ (idx : Int)) :
    ((handleClick paths inside fresh (some uv) s).1.clickedCountry =
        some { name := (paths.getD idx default).name, id := (paths.getD idx default).id } ∧
     (handleClick paths inside fresh (some uv) s).1.targetZoom = 3/2 ∧
     (handleClick paths inside fresh (some uv) s).1.autoRotate = false ∧
     (handleClick paths inside fresh (some uv) s).1.clickTimeout = some fresh ∧
     Effect.setTimeout fresh 3000 ∈ (handleClick paths inside fresh (some uv) s).2) ∧
    (∀ s2 : GlobeState, s2.isDeviceMotionActive = false → s2.clickedCountryIdx ≠ -1 →
      (revertClick s2).1.clickedCountry = none ∧
      (revertClick s2).1.targetZoom = 1 ∧
      (revertClick s2).1.autoRotate = true) ∧
    (∀ (uv2 : ℚ × ℚ) (s3 : GlobeState),
      ¬ (0 ≤ decodedIndex paths inside uv2 ∧
         decodedIndex paths inside uv2 < (paths.length : Int)) →
      handleClick paths inside fresh (some uv2) s3 = revertClick s3) ∧
    (∀ s4 : GlobeState, handleClick paths inside fresh none s4 = revertClick s4) := by
  have hmain : handleClick paths inside fresh (some uv) s =
      handleCountryClick paths fresh idx s := by
    have h1 : updateMap paths inside fresh uv true s =
        (true, (handleCountryClick paths fresh idx s).1,
         (handleCountryClick paths fresh idx s).2) := by
      simp only [updateMap]
      rw [hdec, if_pos ⟨Int.natCast_nonneg idx, by exact_mod_cast hlt⟩]
      simp
    simp [handleClick, h1]
  refine ⟨?_, ?_, ?_, ?_⟩
  · rw [hmain]
    unfold handleCountryClick
    rw [if_neg hne]
    simp [hdm]
  · intro s2 h2dm h2ne
    unfold revertClick
    rw [if_neg h2ne]
    simp [h2dm]
  · intro uv2 s3 hr
    have h2 : updateMap paths inside fresh uv2 true s3 = (false, s3, []) := by
      simp only [updateMap]
      rw [if_neg hr]
    simp only [handleClick, h2]
    simp
  · intro s4
    rfl

/-- Witness for C5: clicking the demo world at a UV decoding to country 0 from
the initial state. -/
theorem clicked_state_transitions_witness :
    (handleClick demoPaths demoInside 3 (some ((0 : ℚ), (0 : ℚ)))
        initialGlobeState).1.clickedCountry = some { name := "Testland", id := "TL" } ∧
    (handleClick demoPaths demoInside 3 (some ((0 : ℚ), (0 : ℚ)))
        initialGlobeState).1.targetZoom = 3/2 ∧
    (handleClick demoPaths demoInside 3 (some ((0 : ℚ), (0 : ℚ)))
        initialGlobeState).1.autoRotate = false ∧
    (handleClick demoPaths demoInside 3 none
        { initialGlobeState with clickedCountryIdx := 0 } =
      revertClick { initialGlobeState with clickedCountryIdx := 0 }) := by
  have h := clicked_state_transitions demoPaths demoInside 3 ((0 : ℚ), (0 : ℚ)) 0
    initialGlobeState rfl (by decide) (by decide) (by decide)
  exact ⟨h.1.1, h.1.2.1, h.1.2.2.1, h.2.2.2 _⟩

/-- Canvas draws emitted by `handleCountryClick` target only the click
canvas. -/
theorem handleCountryClick_draw_canvas (paths : List CountryPath) (fresh idx : Nat)
    (s : GlobeState) (c : CanvasId) (i : Int) :
    Effect.draw c i ∈ (handleCountryClick paths fresh idx s).2 → c = CanvasId.click := by
  intro h
  unfold handleCountryClick at h
  split at h
  · simp at h
  · rcases hT : s.clickTimeout with _ | t <;> simp [hT] at h <;> exact h.1

/-- Canvas draws emitted by `updateMap` target only the hover-highlight or the
click canvas. -/
theorem updateMap_draw_canvas (paths : List CountryPath)
    (inside : Nat → Int × Int → Bool) (fresh : Nat) (uv : ℚ × ℚ) (isClick : Bool)
    (s : GlobeState) (c : CanvasId) (i : Int) :
    Effect.draw c i ∈ (updateMap paths inside fresh uv isClick s).2.2 →
    c = CanvasId.highlight ∨ c = CanvasId.click := by
  intro h
  simp only [updateMap] at h
  split at h
  · split at h
    · exact Or.inr (handleCountryClick_draw_canvas _ _ _ _ _ _ h)
    · split at h
      · simp at h
        exact Or.inl h.1
      · simp at h
  · simp at h

/-- C6: the hover-highlight texture is redrawn only when the hovered index
changes — a pointer move decoding to the current `hoveredCountryIdx` makes
`updateMap` return `true` with the state unchanged and no effects (no redraw,
no country-name update, no animation) — and every canvas draw `updateMap` can
emit targets only the per-country highlight/click canvases, never the base map
or strokes textures. -/
theorem hover_redraw_on_change_only (paths : List CountryPath)
    (inside : Nat → Int × Int → Bool) (fresh : Nat) (uv : ℚ × ℚ) (s : GlobeState)
    (hdec : decodedIndex paths inside uv = s.hoveredCountryIdx)
    (h0 : 0 ≤ s.hoveredCountryIdx)
    (hlt : s.hoveredCountryIdx < (paths.length : Int)) :
    updateMap paths inside fresh uv false s = (true, s, []) ∧
    (∀ (uv2 : ℚ × ℚ) (isClick : Bool) (s2 : GlobeState) (c : CanvasId) (i : Int),
      Effect.draw c i ∈ (updateMap paths inside fresh uv2 isClick s2).2.2 →
      c = CanvasId.highlight ∨ c = CanvasId.click) := by
  constructor
  · simp only [updateMap]
    rw [hdec, if_pos ⟨h0, hlt⟩]
    simp
  · intro uv2 isClick s2 c i h
    exact updateMap_draw_canvas paths inside fresh uv2 isClick s2 c i h

/-- Witness for C6: a pointer move over the demo world that decodes to the
already-hovered country 0 changes nothing. -/
theorem hover_redraw_on_change_only_witness :
    updateMap demoPaths demoInside 0 ((0 : ℚ), (0 : ℚ)) false
        { initialGlobeState with hoveredCountryIdx := 0 } =
      (true, { initialGlobeState with hoveredCountryIdx := 0 }, []) :=
  (hover_redraw_on_change_only demoPaths demoInside 0 ((0 : ℚ), (0 : ℚ))
    { initialGlobeState with hoveredCountryIdx := 0 }
    (by decide) (by decide) (by decide)).1

/-! ### Detail-panel fetches -/

/-- C2: results resolving after the selection was cleared or superseded are
never applied.  Both async continuations — `fetchWeather` (weather and
country-metadata chain) and `fetchSummary` (AI summary and grounding sources)
— check the `isMounted` flag, which the effect cleanup sets to `false`, before
every write; with the flag down they leave the detail state untouched for
every possible response. -/
theorem unmounted_results_dropped (c : ClickedCountry) (o : FetchOracle)
    (apiKey : Option String) (call : Except Unit GenResponse) (d : DetailState) :
    (fetchWeather c o false d).1 = d ∧ fetchSummary apiKey call false d = d := by
  constructor
  · unfold fetchWeather
    rcases h1 : (countryLookup c o).1 with _ | country
    · simp [h1]
    · rcases h2 : countryCoords country with _ | ⟨lat, lng, capital⟩
      · simp [h1, h2]
      · rcases hw : o.weather with _ | w <;> simp [h1, h2, hw]
  · unfold fetchSummary
    repeat' split
    all_goals first | rfl | simp_all

/-- `fetchWeather` never writes the AI-summary side of the detail state. -/
theorem fetchWeather_summary_frame (c : ClickedCountry) (o : FetchOracle)
    (m : Bool) (d : DetailState) :
    (fetchWeather c o m d).1.aiSummary = d.aiSummary ∧
    (fetchWeather c o m d).1.groundingSources = d.groundingSources ∧
    (fetchWeather c o m d).1.isLoadingSummary = d.isLoadingSummary := by
  unfold fetchWeather
  rcases h1 : (countryLookup c o).1 with _ | country
  · cases m <;> simp [h1]
  · rcases h2 : countryCoords country with _ | ⟨lat, lng, capital⟩
    · cases m <;> simp [h1, h2]
    · rcases hw : o.weather with _ | w <;> cases m <;> simp [h1, h2, hw]

/-- `fetchSummary` never writes the weather/country side of the detail state. -/
theorem fetchSummary_weather_frame (apiKey : Option String)
    (call : Except Unit GenResponse) (m : Bool) (d : DetailState) :
    (fetchSummary apiKey call m d).weatherData = d.weatherData ∧
    (fetchSummary apiKey call m d).countryDetails = d.countryDetails ∧
    (fetchSummary apiKey call m d).isLoadingWeather = d.isLoadingWeather := by
  unfold fetchSummary
  repeat' split
  all_goals first | rfl | simp_all

/-- The summary-side fields written by `fetchSummary` do not depend on the
incoming detail state (beyond its grounding sources, which it may keep). -/
theorem fetchSummary_output_fields (apiKey : Option String)
    (call : Except Unit GenResponse) (d d' : DetailState)
    (hg : d.groundingSources = d'.groundingSources) :
    (fetchSummary apiKey call true d).aiSummary =
      (fetchSummary apiKey call true d').aiSummary ∧
    (fetchSummary apiKey call true d).groundingSources =
      (fetchSummary apiKey call true d').groundingSources ∧
    (fetchSummary apiKey call true d).isLoadingSummary =
      (fetchSummary apiKey call true d').isLoadingSummary := by
  by_cases hk : jsTruthyStr apiKey = false
  · simp [fetchSummary, hk, hg]
  · cases call with
    | error e => simp [fetchSummary, hk, hg]
    | ok response =>
      rcases hch : response.groundingChunks with _ | chunks <;>
        simp [fetchSummary, hk, hch, hg]

/-- The code-based `alpha` lookup is attempted exactly when the full-text name
lookup response is not ok and the clicked country has a truthy id. -/
theorem alpha_mem_countryLookup (c : ClickedCountry) (o : FetchOracle) :
    Request.alpha c.id ∈ (countryLookup c o).2 ↔ (o.nameFull = none ∧ c.id ≠ "") := by
  unfold countryLookup
  by_cases hA : o.nameFull = none ∧ c.id ≠ ""
  · simp [hA]
  · simp only [if_neg hA, hA, iff_false, List.append_nil, List.nil_append]
    split <;> simp_all

/-- The requests of `fetchWeather` contain the `alpha` lookup exactly when the
country-lookup chain issues it. -/
theorem fetchWeather_requests_alpha (c : ClickedCountry) (o : FetchOracle)
    (m : Bool) (d : DetailState) :
    (Request.alpha c.id ∈ (fetchWeather c o m d).2 ↔
      Request.alpha c.id ∈ (countryLookup c o).2) := by
  unfold fetchWeather
  rcases h1 : (countryLookup c o).1 with _ | country
  · cases m <;> simp [h1]
  · rcases h2 : countryCoords country with _ | ⟨lat, lng, capital⟩
    · cases m <;> simp [h1, h2]
    · rcases hw : o.weather with _ | w <;> cases m <;> simp [h1, h2, hw]

/-- C7: country metadata is looked up by name with a fallback to code-based
lookup exactly when the name lookup is not ok and the country has an id; and
the weather/country chain and the AI summary are independent and best-effort —
composing both continuations yields `fetchSummary`'s summary fields and
`fetchWeather`'s weather fields whatever the other's outcome (including any
failure). -/
theorem detail_fetches_independent (c : ClickedCountry) (o : FetchOracle)
    (apiKey : Option String) (call : Except Unit GenResponse) (d : DetailState) :
    (Request.alpha c.id ∈ (fetchWeather c o true d).2 ↔
      (o.nameFull = none ∧ c.id ≠ "")) ∧
    ((fetchSummary apiKey call true (fetchWeather c o true d).1).aiSummary =
       (fetchSummary apiKey call true d).aiSummary ∧
     (fetchSummary apiKey call true (fetchWeather c o true d).1).groundingSources =
       (fetchSummary apiKey call true d).groundingSources ∧
     (fetchSummary apiKey call true (fetchWeather c o true d).1).weatherData =
       (fetchWeather c o true d).1.weatherData ∧
     (fetchSummary apiKey call true (fetchWeather c o true d).1).countryDetails =
       (fetchWeather c o true d).1.countryDetails) := by
  refine ⟨(fetchWeather_requests_alpha c o true d).trans (alpha_mem_countryLookup c o),
    ?_, ?_, ?_, ?_⟩
  · exact (fetchSummary_output_fields apiKey call _ d
      (fetchWeather_summary_frame c o true d).2.1).1
  · exact (fetchSummary_output_fields apiKey call _ d
      (fetchWeather_summary_frame c o true d).2.1).2.1
  · exact (fetchSummary_weather_frame apiKey call true _).1
  · exact (fetchSummary_weather_frame apiKey call true _).2.1

/-- C8: a missing (falsy) AI API key, or a `generateContent` call that throws,
sets the AI-summary state to its fixed fallback message and clears the loading
flag, while the selection is still active (`isMounted`); the failure is
absorbed (the continuation is total and touches nothing else). -/
theorem fetchSummary_fallback (apiKey : Option String) (d : DetailState)
    (hkey : jsTruthyStr apiKey = true) :
    (∀ (call : Except Unit GenResponse) (d2 : DetailState),
      fetchSummary none call true d2 =
        { d2 with aiSummary := some "Gemini API key not configured.",
                  isLoadingSummary := false }) ∧
    fetchSummary apiKey (Except.error ()) true d =
      { d with aiSummary := some "Failed to load summary.",
               isLoadingSummary := false } := by
  constructor
  · intro call d2
    rfl
  · simp [fetchSummary, hkey]

/-- Witness for C8: both fallbacks on the empty detail state, with the key
present for the thrown call. -/
theorem fetchSummary_fallback_witness :
    fetchSummary none (Except.error ()) true emptyDetail =
      { emptyDetail with aiSummary := some "Gemini API key not configured.",
                         isLoadingSummary := false } ∧
    fetchSummary (some "key") (Except.error ()) true emptyDetail =
      { emptyDetail with aiSummary := some "Failed to load summary.",
                         isLoadingSummary := false } := by
  have h := fetchSummary_fallback (some "key") emptyDetail (by decide)
  exact ⟨h.1 (Except.error ()) emptyDetail, h.2⟩

/-! ### The target-zoom invariant -/

theorem targetZoom_handleWheel (dY : Bool) (s : GlobeState) :
    8/10 ≤ (handleWheel dY s).1.targetZoom ∧ (handleWheel dY s).1.targetZoom ≤ 3 :=
  ⟨le_max_left _ _, max_le (by norm_num) (min_le_left _ _)⟩

theorem targetZoom_handleCountryClick (paths : List CountryPath) (fresh idx : Nat)
    (s : GlobeState) :
    (handleCountryClick paths fresh idx s).1.targetZoom = s.targetZoom ∨
    (handleCountryClick paths fresh idx s).1.targetZoom = 3/2 := by
  unfold handleCountryClick
  split
  · exact Or.inl rfl
  · exact Or.inr rfl

theorem targetZoom_revertClick (s : GlobeState) :
    (revertClick s).1.targetZoom = s.targetZoom ∨ (revertClick s).1.targetZoom = 1 := by
  unfold revertClick
  split
  · exact Or.inl rfl
  · exact Or.inr rfl

theorem targetZoom_updateMap (paths : List CountryPath)
    (inside : Nat → Int × Int → Bool) (fresh : Nat) (uv : ℚ × ℚ) (isClick : Bool)
    (s : GlobeState) :
    (updateMap paths inside fresh uv isClick s).2.1.targetZoom = s.targetZoom ∨
    (updateMap paths inside fresh uv isClick s).2.1.targetZoom = 3/2 := by
  simp only [updateMap]
  split
  · split
    · exact targetZoom_handleCountryClick paths fresh _ s
    · split
      · exact Or.inl rfl
      · exact Or.inl rfl
  · exact Or.inl rfl

theorem targetZoom_clearHover (s : GlobeState) :
    (clearHover s).1.targetZoom = s.targetZoom := by
  unfold clearHover
  split <;> rfl

theorem targetZoom_handleClick (paths : List CountryPath)
    (inside : Nat → Int × Int → Bool) (fresh : Nat) (hit : Option (ℚ × ℚ))
    (s : GlobeState) :
    (handleClick paths inside fresh hit s).1.targetZoom = s.targetZoom ∨
    (handleClick paths inside fresh hit s).1.targetZoom = 3/2 ∨
    (handleClick paths inside fresh hit s).1.targetZoom = 1 := by
  cases hit with
  | none =>
    rcases targetZoom_revertClick s with h | h
    · exact Or.inl h
    · exact Or.inr (Or.inr h)
  | some uv =>
    simp only [handleClick]
    split
    · rcases targetZoom_updateMap paths inside fresh uv true s with h | h
      · exact Or.inl h
      · exact Or.inr (Or.inl h)
    · rcases targetZoom_revertClick (updateMap paths inside fresh uv true s).2.1 with h | h
      · rcases targetZoom_updateMap paths inside fresh uv true s with h2 | h2
        · exact Or.inl (h.trans h2)
        · exact Or.inr (Or.inl (h.trans h2))
      · exact Or.inr (Or.inr h)

theorem targetZoom_pointerHover (paths : List CountryPath)
    (inside : Nat → Int × Int → Bool) (hit : Option (ℚ × ℚ)) (s : GlobeState) :
    (pointerHover paths inside hit s).1.targetZoom = s.targetZoom ∨
    (pointerHover paths inside hit s).1.targetZoom = 3/2 := by
  cases hit with
  | none => exact Or.inl (targetZoom_clearHover s)
  | some uv =>
    simp only [pointerHover]
    split
    · exact targetZoom_updateMap paths inside 0 uv false s
    · rcases targetZoom_updateMap paths inside 0 uv false s with h | h
      · exact Or.inl ((targetZoom_clearHover _).trans h)
      · exact Or.inr ((targetZoom_clearHover _).trans h)

theorem stepEvent_zoom_invariant (paths : List CountryPath)
    (inside : Nat → Int × Int → Bool) (e : UIEvent) (s : GlobeState)
    (h : 8/10 ≤ s.targetZoom ∧ s.targetZoom ≤ 3) :
    8/10 ≤ (stepEvent paths inside e s).targetZoom ∧
    (stepEvent paths inside e s).targetZoom ≤ 3 := by
  cases e with
  | wheel dY => exact targetZoom_handleWheel dY s
  | pointerClick hit fresh =>
    have hs : stepEvent paths inside (UIEvent.pointerClick hit fresh) s =
        (handleClick paths inside fresh hit s).1 := rfl
    rw [hs]
    rcases targetZoom_handleClick paths inside fresh hit s with h1 | h1 | h1 <;>
      rw [h1] <;> first | exact h | norm_num
  | pointerMove hit =>
    have hs : stepEvent paths inside (UIEvent.pointerMove hit) s =
        (pointerHover paths inside hit s).1 := rfl
    rw [hs]
    rcases targetZoom_pointerHover paths inside hit s with h1 | h1 <;>
      rw [h1] <;> first | exact h | norm_num
  | revertTimer =>
    have hs : stepEvent paths inside UIEvent.revertTimer s = (revertClick s).1 := rfl
    rw [hs]
    rcases targetZoom_revertClick s with h1 | h1 <;>
      rw [h1] <;> first | exact h | norm_num

theorem runEvents_zoom_invariant (paths : List CountryPath)
    (inside : Nat → Int × Int → Bool) (evs : List UIEvent) :
    ∀ s : GlobeState, 8/10 ≤ s.targetZoom ∧ s.targetZoom ≤ 3 →
      8/10 ≤ (runEvents paths inside evs s).targetZoom ∧
      (runEvents paths inside evs s).targetZoom ≤ 3 := by
  induction evs with
  | nil => exact fun s h => h
  | cons e evs ih =>
    intro s h
    exact ih (stepEvent paths inside e s) (stepEvent_zoom_invariant paths inside e s h)

/-- C10: the zoom-target invariant.  `targetZoom` starts at 1; every wheel
event clamps it to `[0.8, 3]`, a successful click sets it to 1.5 and reverting
sets it to 1 — so no sequence of wheel, pointer, click and revert-timer events
drives the zoom target outside `[0.8, 3]`. -/
theorem targetZoom_always_in_range (paths : List CountryPath)
    (inside : Nat → Int × Int → Bool) (evs : List UIEvent) :
    8/10 ≤ (runEvents paths inside evs initialGlobeState).targetZoom ∧
    (runEvents paths inside evs initialGlobeState).targetZoom ≤ 3 :=
  runEvents_zoom_invariant paths inside evs initialGlobeState (by norm_num [initialGlobeState])

end Globe

namespace CameraView

/-- C9: when the camera is being turned on and `getUserMedia` rejects,
`setupCamera` sets the inline error message and switches `isCameraOn` back to
`false`, so the camera stays off. -/
theorem setupCamera_denied (s : CamState) (h : s.isCameraOn = true) :
    setupCamera (Except.error ()) s =
      { s with error := some "Could not access camera", isCameraOn := false } := by
  unfold setupCamera
  rw [h]
  simp

/-- Witness for C9: a rejected permission request while turning the camera on. -/
theorem setupCamera_denied_witness :
    setupCamera (Except.error ())
        { isCameraOn := true, error := none, videoSrcObject := none } =
      { isCameraOn := false, error := some "Could not access camera",
        videoSrcObject := none } :=
  setupCamera_denied { isCameraOn := true, error := none, videoSrcObject := none } rfl

end CameraView
